import Mathlib

/-!
# Verification of the distributed-rate-limiter core

Shallow embedding of the rate-limiter core found in
`internal/ratelimiter` (fixedwindow.go, slidingwindow.go, tokenbucket.go,
result.go, errors.go, interface.go) of the distributed-rate-limiter
repository, together with theorems settling the specification claims.

Modelling conventions:
* Instants are integers counting nanoseconds since the Unix epoch
  (Go `time.Time`), durations are integers counting nanoseconds
  (Go `time.Duration`).
* Go `float64` and Lua number arithmetic is modelled exactly over `ℚ`;
  the claims under scrutiny concern formula structure, not rounding.
* The Redis store is modelled as an association list; the Lua scripts
  become pure functions on that list.  The store round-trip is a
  connection state: `live` (script executes), `down` (transport error)
  or `closed` (client closed).
* Fallible Go functions returning `(value, error)` become `Except`.
* Each admission call is modelled at a single instant `now`: the
  source rereads the clock once more via `time.Until` when computing
  `RetryAfter`; in the single-instant model the two reads coincide.
* The Go field `Prefix` is rendered `pfx` (`prefix` is a Lean keyword);
  `Config.KeyPrefix` is rendered `keyPfx`.
-/

deriving instance DecidableEq for Except

namespace RateLimiter

/-- Nanoseconds per second. -/
def nsPerSec : Int := 1000000000

/-- Go `unixToInternal`: seconds from Go's zero time (Jan 1, year 1 UTC)
to the Unix epoch, `(1969*365 + 1969/4 - 1969/100 + 1969/400) * 86400`. -/
def unixToInternalSec : Int := 62135596800

/-- Go's zero `time.Time` expressed in nanoseconds since the Unix epoch. -/
def goZeroTimeNs : Int := -(unixToInternalSec * nsPerSec)

/-- Go `t.Truncate(d)` for `d > 0`: round `t` down to a multiple of `d`
counted from Go's zero time (not from the Unix epoch).  Input and output
are nanoseconds since the Unix epoch. -/
def goTruncateNs (tNs dNs : Int) : Int :=
  tNs - (tNs + unixToInternalSec * nsPerSec) % dNs

/-- Go `t.Unix()`: whole seconds since the Unix epoch (floor). -/
def unixSec (tNs : Int) : Int := Int.fdiv tNs nsPerSec

/-- The window-start timestamp used by the Fixed and Sliding Window
limiters: `now.Truncate(window).Unix()` (fixedwindow.go:72,
slidingwindow.go:74). -/
def windowStartUnix (nowNs windowNs : Int) : Int :=
  unixSec (goTruncateNs nowNs windowNs)

/-- Go `int64(f)` on a `float64`: truncation toward zero; applied here
to exact rationals. -/
def goTrunc (q : ℚ) : Int := if q < 0 then -((-q).floor) else q.floor

/-- Go `int64(d.Seconds())` for a duration in nanoseconds (used for the
TTL arguments and the previous-window offset). -/
def durSeconds (dNs : Int) : Int := goTrunc ((dNs : ℚ) / (nsPerSec : ℚ))

/-- `calculateResetTime` of the Fixed and Sliding Window limiters:
`time.Unix(windowStart, 0).Add(window)`, in epoch nanoseconds
(fixedwindow.go:144, slidingwindow.go:155). -/
def calculateResetTimeNs (windowStartSec windowNs : Int) : Int :=
  windowStartSec * nsPerSec + windowNs

/-- Go `Algorithm` constant `TokenBucket` (interface.go:14). -/
def TokenBucket : String := "token_bucket"

/-- Go `Algorithm` constant `SlidingWindow` (interface.go:18). -/
def SlidingWindow : String := "sliding_window"

/-- Go `Algorithm` constant `FixedWindow` (interface.go:22). -/
def FixedWindow : String := "fixed_window"

/-- `DefaultPrefix` (result.go): the default Redis key namespace. -/
def defaultPfx : String := "ratelimit"

/-- Go `Config` (interface.go): algorithm, limit, window (nanoseconds),
key namespace `Prefix` (rendered `pfx`) and the fail-open flag. -/
structure Config where
  algorithm : String
  limit : Int
  window : Int
  pfx : String
  failOpen : Bool
deriving Repr, DecidableEq

/-- `Config.Validate` (result.go): returns the first offending field
as an error message, or none when the config is valid. -/
def Config.validate (c : Config) : Option String :=
  if c.algorithm = TokenBucket ∨ c.algorithm = SlidingWindow ∨
      c.algorithm = FixedWindow then
    if c.limit ≤ 0 then some "limit must be greater than 0"
    else if c.window ≤ 0 then some "window must be greater than 0"
    else if c.window < 1000000 then some "window too small"
    else if c.window > 365 * 24 * 3600 * nsPerSec then some "window too large"
    else none
  else if c.algorithm = "" then some "algorithm is required"
  else some "unknown algorithm"

/-- `Config.WithDefaults` (result.go:103): replace an empty `Prefix`
with the default namespace; everything else is copied unchanged. -/
def Config.withDefaults (c : Config) : Config :=
  if c.pfx = "" then { c with pfx := defaultPfx } else c

/-- `Config.KeyPrefix` (result.go:120) for a non-nil config: the raw
`Prefix` field, with no default applied (empty means no namespace). -/
def Config.keyPfx (c : Config) : String := c.pfx

/-- `Config.FormatKey` (result.go:130): prepend the namespace with a
`:` separator, or return the key unchanged when the namespace is empty. -/
def Config.formatKey (c : Config) (key : String) : String :=
  if c.keyPfx = "" then key else c.keyPfx ++ ":" ++ key

/-- Go `Result` (interface.go:26).  `retryAfter` is a duration in
nanoseconds; `resetAt` is an instant in epoch nanoseconds, where
`goZeroTimeNs` plays the role of the zero `time.Time`. -/
structure Result where
  allowed : Bool
  limit : Int
  remaining : Int
  retryAfter : Int
  resetAt : Int
deriving Repr, DecidableEq

/-- The error values of errors.go plus the two shapes the limiters
actually produce: raw client/transport errors (`redisErr`) and
`fmt.Errorf` wrapping (`wrap`). -/
inductive RlError where
  | errInvalidConfig
  | errStorageUnavailable
  | errInvalidKey
  | errInvalidN
  | errClosed
  | redisErr (msg : String)
  | wrap (msg : String) (cause : RlError)
deriving Repr, DecidableEq

/-- Go `errors.Is`: a wrapped error matches a target when it equals the
target or its cause chain contains it. -/
def RlError.isClass : RlError → RlError → Bool
  | .wrap m c, target => (RlError.wrap m c == target) || c.isClass target
  | e, target => e == target

/-- State of the Redis client handle: a reachable store, an unreachable
store, or a closed client (after `Close()`). -/
inductive Conn (σ : Type) where
  | live (s : σ)
  | down
  | closed
deriving Repr, DecidableEq

/-- `Close()` of every limiter closes the underlying client
(fixedwindow.go:131, slidingwindow.go:142, tokenbucket.go:147). -/
def Conn.close {σ : Type} : Conn σ → Conn σ := fun _ => Conn.closed

/-- Integer-counter store used by the window limiters: each entry is
`(key, counter value, TTL in seconds)`.  A TTL of `-1` means no expiry
(a key freshly created by `INCRBY`). -/
abbrev KVStore := List (String × Int × Int)

/-- Look up a key in an integer-counter store. -/
def kvLookup : KVStore → String → Option (Int × Int)
  | [], _ => none
  | (k, v, t) :: rest, key => if k = key then some (v, t) else kvLookup rest key

/-- Overwrite the value and TTL stored at an existing key. -/
def kvSet : KVStore → String → Int × Int → KVStore
  | [], _, _ => []
  | (k, v, t) :: rest, key, vt =>
    if k = key then (k, vt.1, vt.2) :: rest else (k, v, t) :: kvSet rest key vt

/-- Redis `INCRBY`: add `n` to the counter, creating it (with no TTL)
when absent; returns the post-increment value. -/
def kvIncrBy (s : KVStore) (key : String) (n : Int) : Int × KVStore :=
  match kvLookup s key with
  | some (v, t) => (v + n, kvSet s key (v + n, t))
  | none => (n, s ++ [(key, n, -1)])

/-- Redis `EXPIRE`: set the TTL of an existing key; no-op when absent. -/
def kvExpire (s : KVStore) (key : String) (ttl : Int) : KVStore :=
  match kvLookup s key with
  | some (v, _) => kvSet s key (v, ttl)
  | none => s

/-- `fixedWindowScript` (fixedwindow.go:21): `INCRBY` the counter by
`n`; if the post-increment value equals `n` (the call created the key)
set its TTL; return the post-increment value. -/
def fixedWindowScriptRun (s : KVStore) (key : String) (n ttl : Int) :
    Int × KVStore :=
  let (current, s1) := kvIncrBy s key n
  (current, if current = n then kvExpire s1 key ttl else s1)

/-- `slidingWindowScript` (slidingwindow.go:22): read the previous
window counter (0 when absent), `INCRBY` the current one by `n`, set
the current TTL only on creation, always refresh the previous TTL;
return the pair `(previous, current)`. -/
def slidingWindowScriptRun (s : KVStore) (currKey prevKey : String)
    (n currTTL prevTTL : Int) : (Int × Int) × KVStore :=
  let prev := ((kvLookup s prevKey).map (·.1)).getD 0
  let (curr, s1) := kvIncrBy s currKey n
  let s2 := if curr = n then kvExpire s1 currKey currTTL else s1
  ((prev, curr), kvExpire s2 prevKey prevTTL)

/-- Token-bucket store: each entry is
`(key, (tokens, last_refill), TTL in seconds)`, where `tokens` and
`last_refill` are the stringified floats of the Redis hash, modelled
exactly over `ℚ`. -/
abbrev TBStore := List (String × (ℚ × ℚ) × Int)

/-- Look up a bucket state. -/
def tbLookup : TBStore → String → Option (ℚ × ℚ)
  | [], _ => none
  | (k, st, _) :: rest, key => if k = key then some st else tbLookup rest key

/-- `HMSET` followed by `EXPIRE` on the bucket key: overwrite or create
the state and set its TTL. -/
def tbSet : TBStore → String → (ℚ × ℚ) → Int → TBStore
  | [], key, st, ttl => [(key, st, ttl)]
  | (k, v, t) :: rest, key, st, ttl =>
    if k = key then (k, st, ttl) :: rest else (k, v, t) :: tbSet rest key st ttl

/-- `tokenBucketScript` (tokenbucket.go:23): read `(tokens,
last_refill)` defaulting to `(capacity, now)` when absent; refill with
`elapsed = now - last_refill` (note: the source does not clamp a
negative `elapsed`), capped at `capacity`; consume `n` tokens when
available; write back `(tokens, now)` with the given TTL; return
`(allowed, math.floor(tokens))`. -/
def tokenBucketScriptRun (s : TBStore) (key : String)
    (capacity n refillRate now : ℚ) (ttl : Int) : (Int × Int) × TBStore :=
  let st := tbLookup s key
  let tokens0 := (st.map (·.1)).getD capacity
  let lastRefill := (st.map (·.2)).getD now
  let elapsed := now - lastRefill
  let tokens1 := min capacity (tokens0 + elapsed * refillRate)
  let allowed : Int := if n ≤ tokens1 then 1 else 0
  let tokens2 := if n ≤ tokens1 then tokens1 - n else tokens1
  ((allowed, tokens2.floor), tbSet s key (tokens2, now) ttl)

/-- Execute a store round-trip: run the script when the store is
reachable, surface a transport/client error otherwise. -/
def Conn.eval {σ α : Type} (conn : Conn σ) (script : σ → α × σ) :
    Except RlError α × Conn σ :=
  match conn with
  | .live s =>
    let (a, s1) := script s
    (.ok a, .live s1)
  | .down => (.error (.redisErr "connection refused"), .down)
  | .closed => (.error (.redisErr "redis: client is closed"), .closed)

/-- `fixedWindowLimiter.formatKey` (fixedwindow.go:139) and
`slidingWindowLimiter.formatKey` (slidingwindow.go:150): namespace the
caller key and append the window-start timestamp. -/
def windowRedisKey (cfg : Config) (key : String) (windowStart : Int) : String :=
  cfg.formatKey key ++ ":" ++ toString windowStart

/-- `fixedWindowLimiter.AllowN` (fixedwindow.go:65): validate `n`,
derive the window key, run the script, apply the failure policy, and
assemble the `Result` from the post-increment count. -/
def fixedWindowAllowN (cfg : Config) (conn : Conn KVStore) (nowNs : Int)
    (key : String) (n : Int) : Except RlError Result × Conn KVStore :=
  if n ≤ 0 then (.error .errInvalidN, conn)
  else
    let windowStart := windowStartUnix nowNs cfg.window
    let redisKey := windowRedisKey cfg key windowStart
    let ttl := durSeconds cfg.window
    match conn.eval (fun s => fixedWindowScriptRun s redisKey n ttl) with
    | (.error e, conn1) =>
      if cfg.failOpen then
        (.ok { allowed := true, limit := cfg.limit, remaining := 0,
               retryAfter := 0,
               resetAt := calculateResetTimeNs windowStart cfg.window }, conn1)
      else (.error (.wrap "failed to check rate limit" e), conn1)
    | (.ok count, conn1) =>
      let allowed := count ≤ cfg.limit
      let remaining := max 0 (cfg.limit - count)
      let resetAt := calculateResetTimeNs windowStart cfg.window
      let retryAfter := if allowed then 0 else max 0 (resetAt - nowNs)
      (.ok { allowed := allowed, limit := cfg.limit, remaining := remaining,
             retryAfter := retryAfter, resetAt := resetAt }, conn1)

/-- `fixedWindowLimiter.Allow` (fixedwindow.go:59). -/
def fixedWindowAllow (cfg : Config) (conn : Conn KVStore) (nowNs : Int)
    (key : String) : Except RlError Result × Conn KVStore :=
  fixedWindowAllowN cfg conn nowNs key 1

/-- `calculateWeightedCount` (slidingwindow.go:190): with
`progress = (now - time.Unix(windowStart, 0)) / window`, return
`prev * (1 - progress) + curr`.  No clamping is applied. -/
def calculateWeightedCount (cfg : Config) (nowNs windowStartSec : Int)
    (prevCount currCount : Int) : ℚ :=
  let elapsed : ℚ := ((nowNs - windowStartSec * nsPerSec : Int) : ℚ)
  let progress : ℚ := elapsed / ((cfg.window : Int) : ℚ)
  (prevCount : ℚ) * (1 - progress) + (currCount : ℚ)

/-- `slidingWindowLimiter.AllowN` (slidingwindow.go:68): validate `n`,
derive both window keys, run the script, apply the failure policy, and
assemble the `Result` from the weighted count. -/
def slidingWindowAllowN (cfg : Config) (conn : Conn KVStore) (nowNs : Int)
    (key : String) (n : Int) : Except RlError Result × Conn KVStore :=
  if n ≤ 0 then (.error .errInvalidN, conn)
  else
    let currWindowStart := windowStartUnix nowNs cfg.window
    let prevWindowStart := currWindowStart - durSeconds cfg.window
    let currKey := windowRedisKey cfg key currWindowStart
    let prevKey := windowRedisKey cfg key prevWindowStart
    let currTTL := durSeconds cfg.window
    let prevTTL := durSeconds cfg.window * 2
    match conn.eval
        (fun s => slidingWindowScriptRun s currKey prevKey n currTTL prevTTL) with
    | (.error e, conn1) =>
      if cfg.failOpen then
        (.ok { allowed := true, limit := cfg.limit, remaining := 0,
               retryAfter := 0,
               resetAt := calculateResetTimeNs currWindowStart cfg.window },
         conn1)
      else (.error (.wrap "failed to check rate limit" e), conn1)
    | (.ok (prevCount, currCount), conn1) =>
      let w := calculateWeightedCount cfg nowNs currWindowStart prevCount currCount
      let allowed := w ≤ ((cfg.limit : Int) : ℚ)
      let remaining := max 0 (cfg.limit - goTrunc w)
      let resetAt := calculateResetTimeNs currWindowStart cfg.window
      let retryAfter := if allowed then 0 else max 0 (resetAt - nowNs)
      (.ok { allowed := allowed, limit := cfg.limit, remaining := remaining,
             retryAfter := retryAfter, resetAt := resetAt }, conn1)

/-- `slidingWindowLimiter.Allow` (slidingwindow.go:62). -/
def slidingWindowAllow (cfg : Config) (conn : Conn KVStore) (nowNs : Int)
    (key : String) : Except RlError Result × Conn KVStore :=
  slidingWindowAllowN cfg conn nowNs key 1

/-- `calculateRefillRate` (tokenbucket.go:155):
`float64(limit) / window.Seconds()`, in tokens per second. -/
def calculateRefillRate (cfg : Config) : ℚ :=
  ((cfg.limit : Int) : ℚ) / (((cfg.window : Int) : ℚ) / (nsPerSec : ℚ))

/-- `tokenBucketLimiter.calculateResetTime` (tokenbucket.go:161): the
instant `now + limit / refill_rate`, rebuilt from the fractional
`now` exactly as the source does with `time.Unix` and `Add`. -/
def tbCalculateResetTimeNs (cfg : Config) (nowSec : ℚ) : Int :=
  let secondsToFull := ((cfg.limit : Int) : ℚ) / calculateRefillRate cfg
  let baseNs := goTrunc nowSec * nsPerSec +
    goTrunc ((nowSec - ((goTrunc nowSec : Int) : ℚ)) * (nsPerSec : ℚ))
  baseNs + goTrunc (secondsToFull * (nsPerSec : ℚ))

/-- `tokenBucketLimiter.AllowN` (tokenbucket.go:90): validate `n`,
namespace the key, run the script with fractional-second `now`, apply
the failure policy, and assemble the `Result`; a denial estimates
`retry_after = (n - remaining) / refill_rate`. -/
def tokenBucketAllowN (cfg : Config) (conn : Conn TBStore) (nowNs : Int)
    (key : String) (n : Int) : Except RlError Result × Conn TBStore :=
  if n ≤ 0 then (.error .errInvalidN, conn)
  else
    let redisKey := cfg.formatKey key
    let refillRate := calculateRefillRate cfg
    let nowSec : ℚ := ((nowNs : Int) : ℚ) / (nsPerSec : ℚ)
    let ttl := goTrunc ((((cfg.window : Int) : ℚ) / (nsPerSec : ℚ)) * 2)
    match conn.eval (fun s => tokenBucketScriptRun s redisKey
        ((cfg.limit : Int) : ℚ) ((n : Int) : ℚ) refillRate nowSec ttl) with
    | (.error e, conn1) =>
      if cfg.failOpen then
        (.ok { allowed := true, limit := cfg.limit, remaining := 0,
               retryAfter := 0,
               resetAt := tbCalculateResetTimeNs cfg nowSec }, conn1)
      else (.error (.wrap "failed to check rate limit" e), conn1)
    | (.ok (allowedInt, remaining), conn1) =>
      let allowed := allowedInt = 1
      let resetAt := tbCalculateResetTimeNs cfg nowSec
      let retryAfter :=
        if allowed then 0
        else
          let tokensNeeded : ℚ := ((n - remaining : Int) : ℚ)
          let secondsToWait := tokensNeeded / refillRate
          max 0 (goTrunc (secondsToWait * (nsPerSec : ℚ)))
      (.ok { allowed := allowed, limit := cfg.limit, remaining := remaining,
             retryAfter := retryAfter, resetAt := resetAt }, conn1)

/-- `tokenBucketLimiter.Allow` (tokenbucket.go:84). -/
def tokenBucketAllow (cfg : Config) (conn : Conn TBStore) (nowNs : Int)
    (key : String) : Except RlError Result × Conn TBStore :=
  tokenBucketAllowN cfg conn nowNs key 1

/-- Redis `DEL` of a single key on the integer-counter store. -/
def kvDel (s : KVStore) (key : String) : KVStore :=
  s.filter (fun e => e.1 ≠ key)

/-- Redis `DEL` of a single key on the token-bucket store. -/
def tbDel (s : TBStore) (key : String) : TBStore :=
  s.filter (fun e => e.1 ≠ key)

/-- `fixedWindowLimiter.Reset` (fixedwindow.go:118): delete the current
window key; transport errors are wrapped, not classified. -/
def fixedWindowReset (cfg : Config) (conn : Conn KVStore) (nowNs : Int)
    (key : String) : Except RlError Unit × Conn KVStore :=
  let windowStart := windowStartUnix nowNs cfg.window
  let redisKey := windowRedisKey cfg key windowStart
  match conn.eval (fun s => ((), kvDel s redisKey)) with
  | (.error e, conn1) => (.error (.wrap "failed to reset rate limit" e), conn1)
  | (.ok _, conn1) => (.ok (), conn1)

/-- `slidingWindowLimiter.Reset` (slidingwindow.go:125): delete both
window keys. -/
def slidingWindowReset (cfg : Config) (conn : Conn KVStore) (nowNs : Int)
    (key : String) : Except RlError Unit × Conn KVStore :=
  let currWindowStart := windowStartUnix nowNs cfg.window
  let prevWindowStart := currWindowStart - durSeconds cfg.window
  let currKey := windowRedisKey cfg key currWindowStart
  let prevKey := windowRedisKey cfg key prevWindowStart
  match conn.eval (fun s => ((), kvDel (kvDel s currKey) prevKey)) with
  | (.error e, conn1) => (.error (.wrap "failed to reset rate limit" e), conn1)
  | (.ok _, conn1) => (.ok (), conn1)

/-- `tokenBucketLimiter.Reset` (tokenbucket.go:136): delete the bucket
key. -/
def tokenBucketReset (cfg : Config) (conn : Conn TBStore) (key : String) :
    Except RlError Unit × Conn TBStore :=
  let redisKey := cfg.formatKey key
  match conn.eval (fun s => ((), tbDel s redisKey)) with
  | (.error e, conn1) => (.error (.wrap "failed to reset rate limit" e), conn1)
  | (.ok _, conn1) => (.ok (), conn1)

/-- An opaque handle standing for a non-nil `*redis.Client`. -/
structure RedisClient where
  id : Nat
deriving Repr, DecidableEq

/-- A constructed limiter: the client handle plus the config after
`WithDefaults`. -/
structure Limiter where
  client : RedisClient
  config : Config
deriving Repr, DecidableEq

/-- Shared body of the three constructors: nil checks in source order,
then `WithDefaults` and `Validate` (fixedwindow.go:38,
slidingwindow.go:41, tokenbucket.go:63). -/
def newLimiter (client : Option RedisClient) (config : Option Config) :
    Except String Limiter :=
  match client with
  | none => .error "redis client cannot be nil"
  | some cl =>
    match config with
    | none => .error "config cannot be nil"
    | some c =>
      let cfg := c.withDefaults
      match cfg.validate with
      | some msg => .error ("invalid config: " ++ msg)
      | none => .ok { client := cl, config := cfg }

/-- `NewFixedWindow` (fixedwindow.go:38). -/
def NewFixedWindow (client : Option RedisClient) (config : Option Config) :
    Except String Limiter :=
  newLimiter client config

/-- `NewSlidingWindow` (slidingwindow.go:41). -/
def NewSlidingWindow (client : Option RedisClient) (config : Option Config) :
    Except String Limiter :=
  newLimiter client config

/-- `NewTokenBucket` (tokenbucket.go:63). -/
def NewTokenBucket (client : Option RedisClient) (config : Option Config) :
    Except String Limiter :=
  newLimiter client config

/-! ## Definitions written from the specification text

The following definitions follow the words of the specification, not
the source; they exist solely to be compared with the source-derived
definitions above. -/

/-- Modelled from the spec: the window-start formula
`floor(now_seconds / window_seconds) * window_seconds`, in seconds
since the Unix epoch, taking both arguments in (possibly fractional)
seconds. -/
def specWindowStartSec (nowSec windowSec : ℚ) : ℚ :=
  (((nowSec / windowSec).floor : Int) : ℚ) * windowSec

/-- Modelled from the spec: the Sliding Window driver with
`progress = (now - current_window_start) / window` clamped to `[0, 1]`
and `remaining = max(0, limit - floor(w))`, everything else as in the
source driver. -/
def specSlidingWindowAllowN (cfg : Config) (conn : Conn KVStore) (nowNs : Int)
    (key : String) (n : Int) : Except RlError Result × Conn KVStore :=
  if n ≤ 0 then (.error .errInvalidN, conn)
  else
    let currWindowStart := windowStartUnix nowNs cfg.window
    let prevWindowStart := currWindowStart - durSeconds cfg.window
    let currKey := windowRedisKey cfg key currWindowStart
    let prevKey := windowRedisKey cfg key prevWindowStart
    let currTTL := durSeconds cfg.window
    let prevTTL := durSeconds cfg.window * 2
    match conn.eval
        (fun s => slidingWindowScriptRun s currKey prevKey n currTTL prevTTL) with
    | (.error e, conn1) =>
      if cfg.failOpen then
        (.ok { allowed := true, limit := cfg.limit, remaining := 0,
               retryAfter := 0,
               resetAt := calculateResetTimeNs currWindowStart cfg.window },
         conn1)
      else (.error (.wrap "failed to check rate limit" e), conn1)
    | (.ok (prevCount, currCount), conn1) =>
      let elapsed : ℚ := ((nowNs - currWindowStart * nsPerSec : Int) : ℚ)
      let progress := min 1 (max 0 (elapsed / ((cfg.window : Int) : ℚ)))
      let w := (prevCount : ℚ) * (1 - progress) + (currCount : ℚ)
      let allowed := w ≤ ((cfg.limit : Int) : ℚ)
      let remaining := max 0 (cfg.limit - w.floor)
      let resetAt := calculateResetTimeNs currWindowStart cfg.window
      let retryAfter := if allowed then 0 else max 0 (resetAt - nowNs)
      (.ok { allowed := allowed, limit := cfg.limit, remaining := remaining,
             retryAfter := retryAfter, resetAt := resetAt }, conn1)

/-- Modelled from the spec: the Token Bucket admission script with
`elapsed = max(0, now - last_refill)`, everything else as in the
source script. -/
def specTokenBucketScriptRun (s : TBStore) (key : String)
    (capacity n refillRate now : ℚ) (ttl : Int) : (Int × Int) × TBStore :=
  let st := tbLookup s key
  let tokens0 := (st.map (·.1)).getD capacity
  let lastRefill := (st.map (·.2)).getD now
  let elapsed := max 0 (now - lastRefill)
  let tokens1 := min capacity (tokens0 + elapsed * refillRate)
  let allowed : Int := if n ≤ tokens1 then 1 else 0
  let tokens2 := if n ≤ tokens1 then tokens1 - n else tokens1
  ((allowed, tokens2.floor), tbSet s key (tokens2, now) ttl)

/-! ## Concrete fixtures used by the claim instances -/

/-- A config with a whole-second window, in the style of the test
fixtures of the repository. -/
def mkConfig (algo : String) (limit wsSec : Int) (p : String) (fo : Bool) :
    Config :=
  { algorithm := algo, limit := limit, window := wsSec * nsPerSec,
    pfx := p, failOpen := fo }

/-- A config whose window is given directly in nanoseconds (for
sub-second windows, which `Validate` accepts down to 1 ms). -/
def mkConfigNs (algo : String) (limit windowNs : Int) (p : String)
    (fo : Bool) : Config :=
  { algorithm := algo, limit := limit, window := windowNs,
    pfx := p, failOpen := fo }

/-- The post-increment counter value observed by a Fixed Window
`AllowN` call: the stored window counter (0 when absent) plus `n`. -/
def fwCount (cfg : Config) (s : KVStore) (nowNs : Int) (key : String)
    (n : Int) : Int :=
  ((kvLookup s (windowRedisKey cfg key (windowStartUnix nowNs cfg.window))).map
    (·.1)).getD 0 + n

/-- The previous-window counter a Sliding Window `AllowN` call reads
(0 when absent). -/
def swPrevCount (cfg : Config) (s : KVStore) (nowNs : Int) (key : String) :
    Int :=
  ((kvLookup s (windowRedisKey cfg key
    (windowStartUnix nowNs cfg.window - durSeconds cfg.window))).map
      (·.1)).getD 0

/-- The post-increment current-window counter a Sliding Window `AllowN`
call obtains: the stored value (0 when absent) plus `n`. -/
def swCurrCount (cfg : Config) (s : KVStore) (nowNs : Int) (key : String)
    (n : Int) : Int :=
  ((kvLookup s (windowRedisKey cfg key (windowStartUnix nowNs cfg.window))).map
    (·.1)).getD 0 + n

/-- The `(allowed, remaining)` pair the Token Bucket driver receives
from its script for a given store and call. -/
def tbScriptOut (cfg : Config) (s : TBStore) (nowNs : Int) (key : String)
    (n : Int) : Int × Int :=
  (tokenBucketScriptRun s (cfg.formatKey key) ((cfg.limit : Int) : ℚ)
    ((n : Int) : ℚ) (calculateRefillRate cfg)
    (((nowNs : Int) : ℚ) / ((nsPerSec : Int) : ℚ))
    (goTrunc ((((cfg.window : Int) : ℚ) / ((nsPerSec : Int) : ℚ)) * 2))).1

/-! ## Helper lemmas -/

/-- `Rat.floor` agrees with the floor of the `FloorRing` instance. -/
theorem ratFloor_eq_intFloor (q : ℚ) : q.floor = ⌊q⌋ :=
  (Rat.floor_def' q).trans Rat.floor_def.symm

/-- `goTrunc` of an integer is that integer. -/
theorem goTrunc_intCast (k : Int) : goTrunc ((k : Int) : ℚ) = k := by
  unfold goTrunc
  rcases lt_or_le ((k : Int) : ℚ) 0 with h | h
  · rw [if_pos h, ratFloor_eq_intFloor]
    rw [show (-((k : Int) : ℚ)) = (((-k : Int) : Int) : ℚ) by push_cast; ring]
    rw [Int.floor_intCast]; ring
  · rw [if_neg (not_lt.2 h), ratFloor_eq_intFloor, Int.floor_intCast]

/-- `goTrunc` of a non-negative rational is its floor. -/
theorem goTrunc_of_nonneg {q : ℚ} (h : 0 ≤ q) : goTrunc q = q.floor :=
  if_neg (not_lt.2 h)

/-- `nsPerSec` is positive. -/
theorem nsPerSec_pos : (0 : Int) < nsPerSec := by decide

/-- `durSeconds` of a whole number of seconds. -/
theorem durSeconds_mul (ws : Int) : durSeconds (ws * nsPerSec) = ws := by
  unfold durSeconds
  rw [show ((ws * nsPerSec : Int) : ℚ) / ((nsPerSec : Int) : ℚ)
        = ((ws : Int) : ℚ) by
      push_cast
      rw [mul_div_assoc, div_self (by norm_num [nsPerSec]), mul_one]]
  exact goTrunc_intCast ws

/-- Unfolding of Go truncation via Euclidean division. -/
theorem goTruncateNs_eq (t d : Int) :
    goTruncateNs t d =
      d * ((t + unixToInternalSec * nsPerSec) / d) -
        unixToInternalSec * nsPerSec := by
  unfold goTruncateNs
  rw [Int.emod_def]; ring

/-- For a whole-second window the Go-truncated instant is
`(window start in Unix seconds) * nsPerSec`. -/
theorem windowStartUnix_mul (ws t : Int) :
    windowStartUnix t (ws * nsPerSec) =
      ws * ((t + unixToInternalSec * nsPerSec) / (ws * nsPerSec)) -
        unixToInternalSec := by
  unfold windowStartUnix unixSec
  rw [goTruncateNs_eq]
  rw [show ws * nsPerSec * ((t + unixToInternalSec * nsPerSec) / (ws * nsPerSec))
        - unixToInternalSec * nsPerSec
      = (ws * ((t + unixToInternalSec * nsPerSec) / (ws * nsPerSec))
          - unixToInternalSec) * nsPerSec by ring]
  exact Int.mul_fdiv_cancel _ (by decide)

/-- For a whole-second window, scaling the Unix window start back to
nanoseconds recovers the Go-truncated instant. -/
theorem windowStartUnix_ns (ws t : Int) :
    windowStartUnix t (ws * nsPerSec) * nsPerSec = goTruncateNs t (ws * nsPerSec) := by
  rw [windowStartUnix_mul ws t, goTruncateNs_eq]; ring

/-- The time elapsed past the Go-truncated instant is the Euclidean
remainder, hence lies in `[0, d)`. -/
theorem elapsed_bounds (t : Int) {d : Int} (hd : 0 < d) :
    0 ≤ t - goTruncateNs t d ∧ t - goTruncateNs t d < d := by
  unfold goTruncateNs
  constructor
  · have := Int.emod_nonneg (t + unixToInternalSec * nsPerSec) (by omega : d ≠ 0)
    omega
  · have := Int.emod_lt_of_pos (t + unixToInternalSec * nsPerSec) hd
    omega

/-- The post-increment value returned by `INCRBY` is the stored value
(0 when absent) plus the increment. -/
theorem kvIncrBy_fst (s : KVStore) (key : String) (n : Int) :
    (kvIncrBy s key n).1 = ((kvLookup s key).map (·.1)).getD 0 + n := by
  unfold kvIncrBy
  cases h : kvLookup s key with
  | none => simp
  | some vt => simp

/-- The value component returned by the fixed-window script is the
post-increment counter. -/
theorem fixedWindowScriptRun_fst (s : KVStore) (key : String) (n ttl : Int) :
    (fixedWindowScriptRun s key n ttl).1 =
      ((kvLookup s key).map (·.1)).getD 0 + n := by
  show (kvIncrBy s key n).1 = _
  exact kvIncrBy_fst s key n

/-- The pair returned by the sliding-window script: the stored
previous-window counter (0 when absent) and the post-increment
current-window counter. -/
theorem slidingWindowScriptRun_fst (s : KVStore) (currKey prevKey : String)
    (n currTTL prevTTL : Int) :
    (slidingWindowScriptRun s currKey prevKey n currTTL prevTTL).1 =
      (((kvLookup s prevKey).map (·.1)).getD 0,
       ((kvLookup s currKey).map (·.1)).getD 0 + n) := by
  show (((kvLookup s prevKey).map (·.1)).getD 0, (kvIncrBy s currKey n).1) = _
  rw [kvIncrBy_fst]

/-- Clamping to `[0, 1]` is the identity on `[0, 1]`. -/
theorem clamp_eq {q : ℚ} (h0 : 0 ≤ q) (h1 : q ≤ 1) : min 1 (max 0 q) = q := by
  rw [max_eq_right h0, min_eq_right h1]

/-- For whole-second windows, the elapsed time past the window start
used by `calculateWeightedCount` lies in `[0, window)`. -/
theorem elapsed_in_window (cfg : Config) (now ws : Int)
    (hw : cfg.window = ws * nsPerSec) (hws : 0 < ws) :
    0 ≤ now - windowStartUnix now cfg.window * nsPerSec ∧
    now - windowStartUnix now cfg.window * nsPerSec < cfg.window := by
  have hWpos : 0 < cfg.window := by rw [hw]; exact mul_pos hws nsPerSec_pos
  have hstart : windowStartUnix now cfg.window * nsPerSec =
      goTruncateNs now cfg.window := by
    rw [hw]; exact windowStartUnix_ns ws now
  rw [hstart]
  exact elapsed_bounds now hWpos

/-- For whole-second windows and non-negative counters the weighted
count is non-negative. -/
theorem weightedCount_nonneg (cfg : Config) (s : KVStore) (now : Int)
    (key : String) (n ws : Int) (hw : cfg.window = ws * nsPerSec)
    (hws : 0 < ws) (hprev : 0 ≤ swPrevCount cfg s now key)
    (hcurr : 0 ≤ swCurrCount cfg s now key n) :
    0 ≤ calculateWeightedCount cfg now (windowStartUnix now cfg.window)
      (swPrevCount cfg s now key) (swCurrCount cfg s now key n) := by
  obtain ⟨he0, he1⟩ := elapsed_in_window cfg now ws hw hws
  have hWpos : (0 : ℚ) < ((cfg.window : Int) : ℚ) := by
    exact_mod_cast (by rw [hw]; exact mul_pos hws nsPerSec_pos :
      (0 : Int) < cfg.window)
  unfold calculateWeightedCount
  have hp1 : ((now - windowStartUnix now cfg.window * nsPerSec : Int) : ℚ) /
      ((cfg.window : Int) : ℚ) ≤ 1 := by
    rw [div_le_one hWpos]
    exact_mod_cast le_of_lt he1
  have h1 : (0 : ℚ) ≤ ((swPrevCount cfg s now key : Int) : ℚ) := by
    exact_mod_cast hprev
  have h2 : (0 : ℚ) ≤ ((swCurrCount cfg s now key n : Int) : ℚ) := by
    exact_mod_cast hcurr
  nlinarith

/-- Bounds on the pair returned by the token-bucket script: for a
well-formed stored state the reported floor of the token count lies in
`[0, capacity]`, and on denial it is below the requested `n`. -/
theorem tokenBucketScriptRun_bounds (s : TBStore) (key : String)
    (capacity n rate now : ℚ) (ttl : Int)
    (hcap : 0 ≤ capacity) (hn : 0 ≤ n) (hrate : 0 ≤ rate)
    (hst : ∀ st, tbLookup s key = some st →
      0 ≤ st.1 ∧ st.1 ≤ capacity ∧ st.2 ≤ now) :
    0 ≤ (tokenBucketScriptRun s key capacity n rate now ttl).1.2 ∧
    (((tokenBucketScriptRun s key capacity n rate now ttl).1.2 : Int) : ℚ) ≤
      capacity ∧
    ((tokenBucketScriptRun s key capacity n rate now ttl).1.1 ≠ 1 →
      (((tokenBucketScriptRun s key capacity n rate now ttl).1.2 : Int) : ℚ)
        < n) := by
  have h0 : 0 ≤ ((tbLookup s key).map (·.1)).getD capacity := by
    cases h : tbLookup s key with
    | none => simpa using hcap
    | some st => simpa using (hst st h).1
  have hlr : ((tbLookup s key).map (·.2)).getD now ≤ now := by
    cases h : tbLookup s key with
    | none => simp
    | some st => simpa using (hst st h).2.2
  simp only [tokenBucketScriptRun]
  have ht1nn : 0 ≤ min capacity
      (((tbLookup s key).map (·.1)).getD capacity +
        (now - ((tbLookup s key).map (·.2)).getD now) * rate) := by
    refine le_min hcap ?_
    have := mul_nonneg (sub_nonneg.2 hlr) hrate
    linarith
  have ht1le : min capacity
      (((tbLookup s key).map (·.1)).getD capacity +
        (now - ((tbLookup s key).map (·.2)).getD now) * rate) ≤ capacity :=
    min_le_left _ _
  by_cases hc : n ≤ min capacity
      (((tbLookup s key).map (·.1)).getD capacity +
        (now - ((tbLookup s key).map (·.2)).getD now) * rate)
  · simp only [if_pos hc]
    refine ⟨?_, ?_, ?_⟩
    · rw [ratFloor_eq_intFloor]
      exact Int.floor_nonneg.2 (by linarith)
    · rw [ratFloor_eq_intFloor]
      calc ((⌊_⌋ : Int) : ℚ) ≤ _ := Int.floor_le _
        _ ≤ capacity := by linarith
    · intro hne
      exact absurd rfl hne
  · simp only [if_neg hc]
    push_neg at hc
    refine ⟨?_, ?_, ?_⟩
    · rw [ratFloor_eq_intFloor]
      exact Int.floor_nonneg.2 ht1nn
    · rw [ratFloor_eq_intFloor]
      calc ((⌊_⌋ : Int) : ℚ) ≤ _ := Int.floor_le _
        _ ≤ capacity := ht1le
    · intro _
      rw [ratFloor_eq_intFloor]
      calc ((⌊_⌋ : Int) : ℚ) ≤ _ := Int.floor_le _
        _ < n := hc

/-- After `HMSET`, the bucket state at the written key reads back as
written. -/
theorem tbLookup_tbSet (s : TBStore) (key : String) (st : ℚ × ℚ) (ttl : Int) :
    tbLookup (tbSet s key st ttl) key = some st := by
  induction s with
  | nil => simp [tbSet, tbLookup]
  | cons e rest ih =>
    by_cases h : e.1 = key
    · simp [tbSet, tbLookup, h]
    · simpa [tbSet, tbLookup, h] using ih

/-- Explicit form of a Fixed Window `AllowN` result on a live store. -/
theorem fixedWindowAllowN_live_eq (cfg : Config) (s : KVStore) (now : Int)
    (key : String) (n : Int) (hn : 0 < n) :
    (fixedWindowAllowN cfg (.live s) now key n).1 =
      .ok { allowed := decide (fwCount cfg s now key n ≤ cfg.limit),
            limit := cfg.limit,
            remaining := max 0 (cfg.limit - fwCount cfg s now key n),
            retryAfter :=
              if fwCount cfg s now key n ≤ cfg.limit then 0
              else max 0 (calculateResetTimeNs
                (windowStartUnix now cfg.window) cfg.window - now),
            resetAt := calculateResetTimeNs
              (windowStartUnix now cfg.window) cfg.window } := by
  unfold fixedWindowAllowN
  rw [if_neg (not_le.2 hn)]
  simp only [Conn.eval]
  rw [show (fixedWindowScriptRun s
      (windowRedisKey cfg key (windowStartUnix now cfg.window)) n
      (durSeconds cfg.window)).1 = fwCount cfg s now key n from
    fixedWindowScriptRun_fst ..]

/-- Explicit form of a Sliding Window `AllowN` result on a live store. -/
theorem slidingWindowAllowN_live_eq (cfg : Config) (s : KVStore) (now : Int)
    (key : String) (n : Int) (hn : 0 < n) :
    (slidingWindowAllowN cfg (.live s) now key n).1 =
      .ok { allowed := decide (calculateWeightedCount cfg now
              (windowStartUnix now cfg.window) (swPrevCount cfg s now key)
              (swCurrCount cfg s now key n) ≤ ((cfg.limit : Int) : ℚ)),
            limit := cfg.limit,
            remaining := max 0 (cfg.limit - goTrunc
              (calculateWeightedCount cfg now
                (windowStartUnix now cfg.window) (swPrevCount cfg s now key)
                (swCurrCount cfg s now key n))),
            retryAfter :=
              if calculateWeightedCount cfg now
                  (windowStartUnix now cfg.window) (swPrevCount cfg s now key)
                  (swCurrCount cfg s now key n) ≤ ((cfg.limit : Int) : ℚ)
              then 0
              else max 0 (calculateResetTimeNs
                (windowStartUnix now cfg.window) cfg.window - now),
            resetAt := calculateResetTimeNs
              (windowStartUnix now cfg.window) cfg.window } := by
  unfold slidingWindowAllowN
  rw [if_neg (not_le.2 hn)]
  simp only [Conn.eval, slidingWindowScriptRun_fst]
  rw [show ((kvLookup s (windowRedisKey cfg key
      (windowStartUnix now cfg.window - durSeconds cfg.window))).map
        (·.1)).getD 0 = swPrevCount cfg s now key from rfl]
  rw [show ((kvLookup s (windowRedisKey cfg key
      (windowStartUnix now cfg.window))).map (·.1)).getD 0 + n
        = swCurrCount cfg s now key n from rfl]

/-- Explicit form of a Token Bucket `AllowN` result on a live store. -/
theorem tokenBucketAllowN_live_eq (cfg : Config) (s : TBStore) (now : Int)
    (key : String) (n : Int) (hn : 0 < n) :
    (tokenBucketAllowN cfg (.live s) now key n).1 =
      .ok { allowed := decide ((tbScriptOut cfg s now key n).1 = 1),
            limit := cfg.limit,
            remaining := (tbScriptOut cfg s now key n).2,
            retryAfter :=
              if (tbScriptOut cfg s now key n).1 = 1 then 0
              else max 0 (goTrunc
                (((n - (tbScriptOut cfg s now key n).2 : Int) : ℚ) /
                  calculateRefillRate cfg * ((nsPerSec : Int) : ℚ))),
            resetAt := tbCalculateResetTimeNs cfg
              (((now : Int) : ℚ) / ((nsPerSec : Int) : ℚ)) } := by
  unfold tokenBucketAllowN
  rw [if_neg (not_le.2 hn)]
  simp only [Conn.eval]
  rfl

/-! ## Claims -/

/-- C10: each of the three constructors `NewFixedWindow`,
`NewSlidingWindow` and `NewTokenBucket` returns no limiter and a
non-nil error when called with a nil store client or a nil config,
for every value of the other argument. -/
theorem C10_constructors_reject_nil :
    (∀ config : Option Config,
      NewFixedWindow none config = .error "redis client cannot be nil" ∧
      NewSlidingWindow none config = .error "redis client cannot be nil" ∧
      NewTokenBucket none config = .error "redis client cannot be nil") ∧
    (∀ client : RedisClient,
      NewFixedWindow (some client) none = .error "config cannot be nil" ∧
      NewSlidingWindow (some client) none = .error "config cannot be nil" ∧
      NewTokenBucket (some client) none = .error "config cannot be nil") :=
  ⟨fun _ => ⟨rfl, rfl, rfl⟩, fun _ => ⟨rfl, rfl, rfl⟩⟩

/-- C6 counterexample: for a 7-second window at Unix instant 0 the
window-start timestamp computed by the code (Go `Truncate`, aligned to
Go's zero time) is `-4`, not the `floor(now/window)*window = 0` of the
claim, because 7 does not divide the 62135596800-second zero-time
offset. -/
theorem C6_counterexample :
    windowStartUnix 0 (7 * nsPerSec) = -4 ∧
    ((windowStartUnix 0 (7 * nsPerSec) : Int) : ℚ) ≠
      specWindowStartSec (((0 : Int) : ℚ) / ((nsPerSec : Int) : ℚ)) 7 := by
  have h1 : windowStartUnix 0 (7 * nsPerSec) = -4 := by decide
  refine ⟨h1, ?_⟩
  rw [h1]
  unfold specWindowStartSec
  rw [ratFloor_eq_intFloor]
  norm_num

/-- C6 (amended): the window-start timestamp used by the Fixed and
Sliding Window limiters is the truncation of `now` to a multiple of the
window counted from Go's zero time; for every positive whole-second
window `ws` that divides the 62135596800-second zero-time offset (in
particular 60 s and every divisor of a day) it equals the claimed
`floor(now_seconds / window_seconds) * window_seconds`, and the
previous-window key used by the Sliding Window limiter is offset by
exactly `window_seconds`. -/
theorem C6_amended (t ws : Int) (hws : 0 < ws)
    (hdvd : ws ∣ unixToInternalSec) :
    windowStartUnix t (ws * nsPerSec) = Int.fdiv t (ws * nsPerSec) * ws ∧
    ((windowStartUnix t (ws * nsPerSec) : Int) : ℚ) =
      specWindowStartSec (((t : Int) : ℚ) / ((nsPerSec : Int) : ℚ))
        ((ws : Int) : ℚ) ∧
    windowStartUnix t (ws * nsPerSec) - durSeconds (ws * nsPerSec) =
      windowStartUnix t (ws * nsPerSec) - ws := by
  obtain ⟨m, hm⟩ := hdvd
  have hW : (0 : Int) < ws * nsPerSec := by
    have := nsPerSec_pos
    positivity
  have hstart : windowStartUnix t (ws * nsPerSec) = t / (ws * nsPerSec) * ws := by
    rw [windowStartUnix_mul]
    rw [show t + unixToInternalSec * nsPerSec
          = t + m * (ws * nsPerSec) by rw [hm]; ring]
    rw [Int.add_mul_ediv_right _ _ (by omega : ws * nsPerSec ≠ 0), hm]
    ring
  refine ⟨?_, ?_, ?_⟩
  · rw [hstart, Int.fdiv_eq_ediv _ (le_of_lt hW)]
  · rw [hstart]
    unfold specWindowStartSec
    rw [show ((t : Int) : ℚ) / ((nsPerSec : Int) : ℚ) / ((ws : Int) : ℚ)
          = ((t : Int) : ℚ) / (((ws * nsPerSec : Int) : Int) : ℚ) by
        push_cast; rw [div_div]; ring_nf]
    rw [show (((ws * nsPerSec : Int) : Int) : ℚ)
          = (((ws * nsPerSec).toNat : ℕ) : ℚ) by
        rw [← Int.toNat_of_nonneg (le_of_lt hW)]; push_cast; rfl]
    rw [ratFloor_eq_intFloor, Rat.floor_intCast_div_natCast,
      Int.toNat_of_nonneg (le_of_lt hW)]
    push_cast
    ring
  · rw [durSeconds_mul]

/-- C6 (amended) witness at `t = 123456789123456789` ns, `ws = 60` s. -/
theorem C6_amended_witness :
    windowStartUnix 123456789123456789 (60 * nsPerSec) =
      Int.fdiv 123456789123456789 (60 * nsPerSec) * 60 ∧
    ((windowStartUnix 123456789123456789 (60 * nsPerSec) : Int) : ℚ) =
      specWindowStartSec
        (((123456789123456789 : Int) : ℚ) / ((nsPerSec : Int) : ℚ))
        ((60 : Int) : ℚ) ∧
    windowStartUnix 123456789123456789 (60 * nsPerSec) -
        durSeconds (60 * nsPerSec) =
      windowStartUnix 123456789123456789 (60 * nsPerSec) - 60 :=
  C6_amended 123456789123456789 60 (by decide)
    (by norm_num [unixToInternalSec])

/-- C9 counterexample: a Fixed Window limiter constructed with the
prefix explicitly set to the empty string still derives store keys
carrying the default `ratelimit` namespace — `WithDefaults` replaces
the empty string before `FormatKey` ever sees it, so prefixing is not
disabled. -/
theorem C9_counterexample :
    NewFixedWindow (some ⟨0⟩) (some (mkConfig FixedWindow 5 60 "" false)) =
      .ok ⟨⟨0⟩, mkConfig FixedWindow 5 60 "ratelimit" false⟩ ∧
    windowRedisKey (mkConfig FixedWindow 5 60 "ratelimit" false) "user" 0 =
      "ratelimit:user:0" ∧
    ("ratelimit:user:0" : String) ≠ "user:0" := by
  refine ⟨by decide, by decide, by decide⟩

/-- C9 (amended): a limiter whose config carries an empty prefix —
whether unset or explicitly empty, the two are indistinguishable —
derives store keys that begin with the default `ratelimit:` namespace;
prefixing cannot be disabled through the constructors. -/
theorem C9_amended (c : Config) (cl : RedisClient) (lim : Limiter)
    (key : String) (windowStart : Int)
    (hpfx : c.pfx = "")
    (hok : NewFixedWindow (some cl) (some c) = .ok lim) :
    lim.config.pfx = defaultPfx ∧
    lim.config.formatKey key = "ratelimit:" ++ key ∧
    windowRedisKey lim.config key windowStart =
      "ratelimit:" ++ (key ++ (":" ++ toString windowStart)) := by
  have hcfg : lim.config = { c with pfx := defaultPfx } := by
    unfold NewFixedWindow at hok
    rcases hv : (c.withDefaults).validate with _ | msg
    · have hok2 : newLimiter (some cl) (some c) =
          .ok { client := cl, config := c.withDefaults } := by
        simp [newLimiter, hv]
      rw [hok2] at hok
      simp only [Except.ok.injEq] at hok
      rw [← hok]
      show c.withDefaults = _
      unfold Config.withDefaults
      rw [if_pos hpfx]
    · have hok2 : newLimiter (some cl) (some c) =
          .error ("invalid config: " ++ msg) := by
        simp [newLimiter, hv]
      rw [hok2] at hok
      exact absurd hok (by simp)
  have hpfx2 : lim.config.pfx = defaultPfx := by rw [hcfg]
  have hfk : lim.config.formatKey key = "ratelimit:" ++ key := by
    unfold Config.formatKey Config.keyPfx
    rw [hpfx2]
    rw [if_neg (by decide : ¬ (defaultPfx = ""))]
    rw [show defaultPfx = "ratelimit" from rfl,
      show ("ratelimit:" : String) = "ratelimit" ++ ":" from by decide,
      String.append_assoc]
  refine ⟨hpfx2, hfk, ?_⟩
  unfold windowRedisKey
  rw [hfk, String.append_assoc, String.append_assoc]

/-- C9 (amended) witness: concrete limiter with explicitly empty
prefix, caller key `user`, window start 0. -/
theorem C9_amended_witness :
    (Limiter.mk ⟨0⟩ (mkConfig FixedWindow 5 60 "ratelimit" false)).config.pfx
      = defaultPfx ∧
    (Limiter.mk ⟨0⟩
        (mkConfig FixedWindow 5 60 "ratelimit" false)).config.formatKey "user"
      = "ratelimit:" ++ "user" ∧
    windowRedisKey
        (Limiter.mk ⟨0⟩ (mkConfig FixedWindow 5 60 "ratelimit" false)).config
        "user" 0
      = "ratelimit:" ++ ("user" ++ (":" ++ toString (0 : Int))) :=
  C9_amended (mkConfig FixedWindow 5 60 "" false) ⟨0⟩ _ "user" 0 rfl (by decide)

/-- C7: the `n ≤ 0` pre-condition is enforced (ERR_INVALID_N, store
untouched), but the empty-key pre-condition is not — `Allow` with the
empty caller key runs the store script, creates the counter
`test::1699999980`, and returns an ordinary allowed `Result` with no
error, contradicting the claimed ERR_INVALID_KEY with no store side
effects. -/
theorem C7_empty_key_eval :
    fixedWindowAllow (mkConfig FixedWindow 10 60 "test" false)
        (.live []) (1700000000 * nsPerSec) "" =
      (.ok { allowed := true, limit := 10, remaining := 9, retryAfter := 0,
             resetAt := 1700000040 * nsPerSec },
       .live [("test::1699999980", 1, 60)]) ∧
    fixedWindowAllowN (mkConfig FixedWindow 10 60 "test" false)
        (.live []) (1700000000 * nsPerSec) "user" 0 =
      (.error .errInvalidN, .live []) ∧
    slidingWindowAllowN (mkConfig SlidingWindow 10 60 "test" false)
        (.live []) (1700000000 * nsPerSec) "user" 0 =
      (.error .errInvalidN, .live []) ∧
    tokenBucketAllowN (mkConfig TokenBucket 10 60 "test" false)
        (.live []) (1700000000 * nsPerSec) "user" (-5) =
      (.error .errInvalidN, .live []) := by
  have h : durSeconds (mkConfig FixedWindow 10 60 "test" false).window = 60 :=
    durSeconds_mul 60
  refine ⟨?_, by decide, by decide, by decide⟩
  unfold fixedWindowAllow fixedWindowAllowN
  rw [h]
  decide

/-- C8 counterexample: after `Close()` a fail-open limiter does not
fail at all — `Allow` returns an allowed degraded `Result` with no
error — and a fail-closed limiter returns a wrapped client error that
`errors.Is` does not classify as ERR_CLOSED. -/
theorem C8_counterexample :
    fixedWindowAllow (mkConfig FixedWindow 5 60 "test" true)
        (Conn.close (Conn.live [])) (1700000000 * nsPerSec) "user" =
      (.ok { allowed := true, limit := 5, remaining := 0, retryAfter := 0,
             resetAt := 1700000040 * nsPerSec },
       Conn.closed) ∧
    (fixedWindowAllow (mkConfig FixedWindow 5 60 "test" false)
        (Conn.close (Conn.live [])) (1700000000 * nsPerSec) "user").1 =
      .error (.wrap "failed to check rate limit"
        (.redisErr "redis: client is closed")) ∧
    RlError.isClass
      (.wrap "failed to check rate limit" (.redisErr "redis: client is closed"))
      .errClosed = false := by
  refine ⟨by decide, by decide, by decide⟩

/-- C8 (amended): operations on a closed limiter reach the closed
client handle instead of being rejected up front.  With `fail_open`
true, Allow/AllowN succeed with the degraded allowed result; with
`fail_open` false they return the wrapped client error, which is not
classified ERR_CLOSED; `Reset` always returns a wrapped client error. -/
theorem C8_amended (cfg : Config) (key : String) (now n : Int) (hn : 0 < n) :
    (cfg.failOpen = true →
      fixedWindowAllowN cfg Conn.closed now key n =
        (.ok { allowed := true, limit := cfg.limit, remaining := 0,
               retryAfter := 0,
               resetAt := calculateResetTimeNs
                 (windowStartUnix now cfg.window) cfg.window },
         Conn.closed) ∧
      slidingWindowAllowN cfg Conn.closed now key n =
        (.ok { allowed := true, limit := cfg.limit, remaining := 0,
               retryAfter := 0,
               resetAt := calculateResetTimeNs
                 (windowStartUnix now cfg.window) cfg.window },
         Conn.closed) ∧
      tokenBucketAllowN cfg Conn.closed now key n =
        (.ok { allowed := true, limit := cfg.limit, remaining := 0,
               retryAfter := 0,
               resetAt := tbCalculateResetTimeNs cfg
                 (((now : Int) : ℚ) / ((nsPerSec : Int) : ℚ)) },
         Conn.closed)) ∧
    (cfg.failOpen = false →
      fixedWindowAllowN cfg Conn.closed now key n =
        (.error (.wrap "failed to check rate limit"
          (.redisErr "redis: client is closed")), Conn.closed) ∧
      slidingWindowAllowN cfg Conn.closed now key n =
        (.error (.wrap "failed to check rate limit"
          (.redisErr "redis: client is closed")), Conn.closed) ∧
      tokenBucketAllowN cfg Conn.closed now key n =
        (.error (.wrap "failed to check rate limit"
          (.redisErr "redis: client is closed")), Conn.closed)) ∧
    RlError.isClass
      (.wrap "failed to check rate limit" (.redisErr "redis: client is closed"))
      .errClosed = false ∧
    fixedWindowReset cfg Conn.closed now key =
      (.error (.wrap "failed to reset rate limit"
        (.redisErr "redis: client is closed")), Conn.closed) ∧
    slidingWindowReset cfg Conn.closed now key =
      (.error (.wrap "failed to reset rate limit"
        (.redisErr "redis: client is closed")), Conn.closed) ∧
    tokenBucketReset cfg Conn.closed key =
      (.error (.wrap "failed to reset rate limit"
        (.redisErr "redis: client is closed")), Conn.closed) := by
  have hn2 : ¬ n ≤ 0 := not_le.2 hn
  refine ⟨?_, ?_, by decide, ?_, ?_, ?_⟩
  · intro hfo
    refine ⟨?_, ?_, ?_⟩
    · unfold fixedWindowAllowN
      rw [if_neg hn2]
      simp [Conn.eval, hfo]
    · unfold slidingWindowAllowN
      rw [if_neg hn2]
      simp [Conn.eval, hfo]
    · unfold tokenBucketAllowN
      rw [if_neg hn2]
      simp [Conn.eval, hfo]
  · intro hfo
    refine ⟨?_, ?_, ?_⟩
    · unfold fixedWindowAllowN
      rw [if_neg hn2]
      simp [Conn.eval, hfo]
    · unfold slidingWindowAllowN
      rw [if_neg hn2]
      simp [Conn.eval, hfo]
    · unfold tokenBucketAllowN
      rw [if_neg hn2]
      simp [Conn.eval, hfo]
  · unfold fixedWindowReset
    simp [Conn.eval]
  · unfold slidingWindowReset
    simp [Conn.eval]
  · unfold tokenBucketReset
    simp [Conn.eval]

/-- C8 (amended) witness: a closed fail-open Fixed Window limiter still
admits the call with no error. -/
theorem C8_amended_witness :
    fixedWindowAllowN (mkConfig FixedWindow 5 60 "test" true)
        Conn.closed 0 "u" 1 =
      (.ok { allowed := true, limit := 5, remaining := 0, retryAfter := 0,
             resetAt := 60 * nsPerSec },
       Conn.closed) := by
  exact ((C8_amended (mkConfig FixedWindow 5 60 "test" true) "u" 0 1
    (by decide)).1 rfl).1

/-- C1 counterexample: with the store unreachable and `fail_open` true
the degraded `Result` carries `limit = 5` (the configured limit, not 0)
and a computed non-zero `reset_at`; with `fail_open` false the error is
the wrapped transport error, which `errors.Is` does not classify as
ERR_STORAGE_UNAVAILABLE. -/
theorem C1_counterexample :
    fixedWindowAllow (mkConfig FixedWindow 5 60 "test" true)
        Conn.down (1700000000 * nsPerSec) "u" =
      (.ok { allowed := true, limit := 5, remaining := 0, retryAfter := 0,
             resetAt := 1700000040 * nsPerSec },
       Conn.down) ∧
    (5 : Int) ≠ 0 ∧
    (1700000040 * nsPerSec : Int) ≠ goZeroTimeNs ∧
    (fixedWindowAllow (mkConfig FixedWindow 5 60 "test" false)
        Conn.down (1700000000 * nsPerSec) "u").1 =
      .error (.wrap "failed to check rate limit"
        (.redisErr "connection refused")) ∧
    RlError.isClass
      (.wrap "failed to check rate limit" (.redisErr "connection refused"))
      .errStorageUnavailable = false := by
  refine ⟨by decide, by decide, by decide, by decide, by decide⟩

/-- C1 (amended): on a failed store round-trip, fail-open returns a
degraded allowed `Result` with `remaining = 0`, `retry_after = 0`, the
configured limit echoed in `limit` and the computed reset time in
`reset_at` (not a zero-valued one), and no error; fail-closed returns
no `Result` and an error that wraps the underlying cause but is not
classified ERR_STORAGE_UNAVAILABLE. -/
theorem C1_amended (cfg : Config) (key : String) (now n : Int) (hn : 0 < n) :
    (cfg.failOpen = true →
      fixedWindowAllowN cfg Conn.down now key n =
        (.ok { allowed := true, limit := cfg.limit, remaining := 0,
               retryAfter := 0,
               resetAt := calculateResetTimeNs
                 (windowStartUnix now cfg.window) cfg.window },
         Conn.down) ∧
      slidingWindowAllowN cfg Conn.down now key n =
        (.ok { allowed := true, limit := cfg.limit, remaining := 0,
               retryAfter := 0,
               resetAt := calculateResetTimeNs
                 (windowStartUnix now cfg.window) cfg.window },
         Conn.down) ∧
      tokenBucketAllowN cfg Conn.down now key n =
        (.ok { allowed := true, limit := cfg.limit, remaining := 0,
               retryAfter := 0,
               resetAt := tbCalculateResetTimeNs cfg
                 (((now : Int) : ℚ) / ((nsPerSec : Int) : ℚ)) },
         Conn.down)) ∧
    (cfg.failOpen = false →
      fixedWindowAllowN cfg Conn.down now key n =
        (.error (.wrap "failed to check rate limit"
          (.redisErr "connection refused")), Conn.down) ∧
      slidingWindowAllowN cfg Conn.down now key n =
        (.error (.wrap "failed to check rate limit"
          (.redisErr "connection refused")), Conn.down) ∧
      tokenBucketAllowN cfg Conn.down now key n =
        (.error (.wrap "failed to check rate limit"
          (.redisErr "connection refused")), Conn.down)) ∧
    RlError.isClass
      (.wrap "failed to check rate limit" (.redisErr "connection refused"))
      .errStorageUnavailable = false ∧
    RlError.isClass
      (.wrap "failed to check rate limit" (.redisErr "connection refused"))
      (.redisErr "connection refused") = true := by
  have hn2 : ¬ n ≤ 0 := not_le.2 hn
  refine ⟨?_, ?_, by decide, by decide⟩
  · intro hfo
    refine ⟨?_, ?_, ?_⟩
    · unfold fixedWindowAllowN
      rw [if_neg hn2]
      simp [Conn.eval, hfo]
    · unfold slidingWindowAllowN
      rw [if_neg hn2]
      simp [Conn.eval, hfo]
    · unfold tokenBucketAllowN
      rw [if_neg hn2]
      simp [Conn.eval, hfo]
  · intro hfo
    refine ⟨?_, ?_, ?_⟩
    · unfold fixedWindowAllowN
      rw [if_neg hn2]
      simp [Conn.eval, hfo]
    · unfold slidingWindowAllowN
      rw [if_neg hn2]
      simp [Conn.eval, hfo]
    · unfold tokenBucketAllowN
      rw [if_neg hn2]
      simp [Conn.eval, hfo]

/-- C2: Fixed Window `AllowN` increments the window counter by `n` to
obtain `count` and returns `allowed = (count ≤ limit)`,
`remaining = max(0, limit - count)` and, when denied,
`retry_after = max(0, reset_at - now)`; with limit 5 and a 60 s window,
six consecutive `Allow` calls on a fresh key return
allowed true×5,false with remaining 4,3,2,1,0,0 and the sixth
`retry_after` (40 s here) in `(0, window]`. -/
theorem C2_fixed_window_driver (cfg : Config) (s : KVStore) (now : Int)
    (key : String) (n : Int) (hn : 0 < n) :
    ((fixedWindowAllowN cfg (.live s) now key n).1 =
      .ok { allowed := decide (fwCount cfg s now key n ≤ cfg.limit),
            limit := cfg.limit,
            remaining := max 0 (cfg.limit - fwCount cfg s now key n),
            retryAfter :=
              if fwCount cfg s now key n ≤ cfg.limit then 0
              else max 0 (calculateResetTimeNs
                (windowStartUnix now cfg.window) cfg.window - now),
            resetAt := calculateResetTimeNs
              (windowStartUnix now cfg.window) cfg.window }) ∧
    (fixedWindowAllow (mkConfig FixedWindow 5 60 "test" false)
        (.live []) (1700000000 * nsPerSec) "u" =
      (.ok { allowed := true, limit := 5, remaining := 4, retryAfter := 0,
             resetAt := 1700000040 * nsPerSec },
       .live [("test:u:1699999980", 1, 60)]) ∧
     fixedWindowAllow (mkConfig FixedWindow 5 60 "test" false)
        (.live [("test:u:1699999980", 1, 60)]) (1700000000 * nsPerSec) "u" =
      (.ok { allowed := true, limit := 5, remaining := 3, retryAfter := 0,
             resetAt := 1700000040 * nsPerSec },
       .live [("test:u:1699999980", 2, 60)]) ∧
     fixedWindowAllow (mkConfig FixedWindow 5 60 "test" false)
        (.live [("test:u:1699999980", 2, 60)]) (1700000000 * nsPerSec) "u" =
      (.ok { allowed := true, limit := 5, remaining := 2, retryAfter := 0,
             resetAt := 1700000040 * nsPerSec },
       .live [("test:u:1699999980", 3, 60)]) ∧
     fixedWindowAllow (mkConfig FixedWindow 5 60 "test" false)
        (.live [("test:u:1699999980", 3, 60)]) (1700000000 * nsPerSec) "u" =
      (.ok { allowed := true, limit := 5, remaining := 1, retryAfter := 0,
             resetAt := 1700000040 * nsPerSec },
       .live [("test:u:1699999980", 4, 60)]) ∧
     fixedWindowAllow (mkConfig FixedWindow 5 60 "test" false)
        (.live [("test:u:1699999980", 4, 60)]) (1700000000 * nsPerSec) "u" =
      (.ok { allowed := true, limit := 5, remaining := 0, retryAfter := 0,
             resetAt := 1700000040 * nsPerSec },
       .live [("test:u:1699999980", 5, 60)]) ∧
     fixedWindowAllow (mkConfig FixedWindow 5 60 "test" false)
        (.live [("test:u:1699999980", 5, 60)]) (1700000000 * nsPerSec) "u" =
      (.ok { allowed := false, limit := 5, remaining := 0,
             retryAfter := 40 * nsPerSec,
             resetAt := 1700000040 * nsPerSec },
       .live [("test:u:1699999980", 6, 60)]) ∧
     (0 : Int) < 40 * nsPerSec ∧ (40 : Int) * nsPerSec ≤ 60 * nsPerSec) := by
  constructor
  · exact fixedWindowAllowN_live_eq cfg s now key n hn
  · have h : durSeconds (mkConfig FixedWindow 5 60 "test" false).window = 60 :=
      durSeconds_mul 60
    refine ⟨?_, ?_, ?_, ?_, ?_, ?_, by decide, by decide⟩ <;>
      (unfold fixedWindowAllow fixedWindowAllowN; rw [h]; decide)

/-- C2 witness: the driver-arithmetic part applied to a store already
holding 4 units, with `n = 3` and limit 5: count 7, denied,
`remaining = 0`, `retry_after = reset_at - now = 40 s`. -/
theorem C2_fixed_window_driver_witness :
    (fixedWindowAllowN (mkConfig FixedWindow 5 60 "test" false)
        (.live [("test:u:1699999980", 4, 60)]) (1700000000 * nsPerSec)
        "u" 3).1 =
      .ok { allowed := false, limit := 5, remaining := 0,
            retryAfter := 40 * nsPerSec,
            resetAt := 1700000040 * nsPerSec } := by
  have h := (C2_fixed_window_driver (mkConfig FixedWindow 5 60 "test" false)
    [("test:u:1699999980", 4, 60)] (1700000000 * nsPerSec) "u" 3
    (by decide)).1
  rw [h]
  decide

/-- C3 counterexample: with the valid sub-second window of 500 ms
(window start floored to whole Unix seconds), at `now = 1.7 s` the
code's unclamped progress is `0.7 / 0.5 = 1.4`; with a previous count
of 10 the code returns `remaining = 93` while the claimed clamped
computation returns `remaining = 89`. -/
theorem C3_counterexample :
    (slidingWindowAllowN (mkConfigNs SlidingWindow 100 500000000 "test" false)
        (.live [("test:u:1", 10, 60)]) 1700000000 "u" 1).1 =
      .ok { allowed := true, limit := 100, remaining := 93, retryAfter := 0,
            resetAt := 1500000000 } ∧
    (specSlidingWindowAllowN
        (mkConfigNs SlidingWindow 100 500000000 "test" false)
        (.live [("test:u:1", 10, 60)]) 1700000000 "u" 1).1 =
      .ok { allowed := true, limit := 100, remaining := 89, retryAfter := 0,
            resetAt := 1500000000 } ∧
    ({ allowed := true, limit := 100, remaining := 93, retryAfter := 0,
       resetAt := 1500000000 } : Result) ≠
      { allowed := true, limit := 100, remaining := 89, retryAfter := 0,
        resetAt := 1500000000 } := by
  have hws : windowStartUnix 1700000000
      (mkConfigNs SlidingWindow 100 500000000 "test" false).window = 1 := by
    decide
  have hds : durSeconds
      (mkConfigNs SlidingWindow 100 500000000 "test" false).window = 0 := by
    show durSeconds 500000000 = 0
    unfold durSeconds goTrunc
    rw [show ((500000000 : Int) : ℚ) / ((nsPerSec : Int) : ℚ) = 1 / 2 by
      norm_num [nsPerSec]]
    rw [if_neg (by norm_num), ratFloor_eq_intFloor]
    norm_num
  have hk1 : windowRedisKey
      (mkConfigNs SlidingWindow 100 500000000 "test" false) "u" 1 =
      "test:u:1" := by decide
  have hk2 : windowRedisKey
      (mkConfigNs SlidingWindow 100 500000000 "test" false) "u" (1 - 0) =
      "test:u:1" := by decide
  refine ⟨?_, ?_, by decide⟩
  · unfold slidingWindowAllowN
    rw [hws, hds]
    simp only [Conn.eval]
    rw [hk1, hk2]
    simp only [slidingWindowScriptRun, kvLookup, kvIncrBy, kvSet, kvExpire]
    norm_num [calculateWeightedCount, calculateResetTimeNs, goTrunc,
      ratFloor_eq_intFloor, mkConfigNs, nsPerSec]
  · unfold specSlidingWindowAllowN
    rw [hws, hds]
    simp only [Conn.eval]
    rw [hk1, hk2]
    simp only [slidingWindowScriptRun, kvLookup, kvIncrBy, kvSet, kvExpire]
    norm_num [calculateResetTimeNs, ratFloor_eq_intFloor, mkConfigNs, nsPerSec]

/-- C3 (amended): for whole-second windows the Sliding Window driver
behaves exactly as the claim states — the progress ratio lies in
`[0, 1)`, so the clamp the claim mentions (absent from the code) is
immaterial, the weighted count uses the already-incremented current
count, `allowed = (w ≤ limit)` and `remaining = max(0, limit -
floor(w))` — stated as equality with the spec-modelled clamped driver;
and on the claim's own instance (limit 100, previous 80, progress 0.5,
current count 15 after AllowN(5)) the weighted count is 55 and the
call is allowed. -/
theorem C3_sliding_window_driver (cfg : Config) (s : KVStore) (now : Int)
    (key : String) (n ws : Int) (hw : cfg.window = ws * nsPerSec)
    (hws : 0 < ws) (hn : 0 < n)
    (hprev : 0 ≤ swPrevCount cfg s now key)
    (hcurr : 0 ≤ swCurrCount cfg s now key n) :
    (slidingWindowAllowN cfg (.live s) now key n =
      specSlidingWindowAllowN cfg (.live s) now key n) ∧
    (calculateWeightedCount (mkConfig SlidingWindow 100 60 "test" false)
        (30 * nsPerSec) 0 80 15 = 55 ∧
     (slidingWindowAllowN (mkConfig SlidingWindow 100 60 "test" false)
        (.live [("test:u:-60", 80, 60), ("test:u:0", 10, 60)])
        (30 * nsPerSec) "u" 5).1 =
      .ok { allowed := true, limit := 100, remaining := 45, retryAfter := 0,
            resetAt := 60 * nsPerSec }) := by
  constructor
  · have hWpos : 0 < cfg.window := by
      rw [hw]; exact mul_pos hws nsPerSec_pos
    have hstart : windowStartUnix now cfg.window * nsPerSec =
        goTruncateNs now cfg.window := by
      rw [hw]; exact windowStartUnix_ns ws now
    obtain ⟨he0, he1⟩ := elapsed_bounds now hWpos
    have hel0 : (0 : Int) ≤ now - windowStartUnix now cfg.window * nsPerSec := by
      rw [hstart]; exact he0
    have hel1 : now - windowStartUnix now cfg.window * nsPerSec < cfg.window := by
      rw [hstart]; exact he1
    have hp0 : (0 : ℚ) ≤
        ((now - windowStartUnix now cfg.window * nsPerSec : Int) : ℚ) /
          ((cfg.window : Int) : ℚ) := by
      apply div_nonneg
      · exact_mod_cast hel0
      · exact_mod_cast le_of_lt hWpos
    have hp1 : ((now - windowStartUnix now cfg.window * nsPerSec : Int) : ℚ) /
          ((cfg.window : Int) : ℚ) < 1 := by
      rw [div_lt_one (by exact_mod_cast hWpos)]
      exact_mod_cast hel1
    have hclamp : min 1 (max 0
        (((now - windowStartUnix now cfg.window * nsPerSec : Int) : ℚ) /
          ((cfg.window : Int) : ℚ))) =
        ((now - windowStartUnix now cfg.window * nsPerSec : Int) : ℚ) /
          ((cfg.window : Int) : ℚ) :=
      clamp_eq hp0 (le_of_lt hp1)
    have hwnn : (0 : ℚ) ≤
        ((swPrevCount cfg s now key : Int) : ℚ) *
          (1 - ((now - windowStartUnix now cfg.window * nsPerSec : Int) : ℚ) /
            ((cfg.window : Int) : ℚ)) +
        ((swCurrCount cfg s now key n : Int) : ℚ) := by
      have h1 : (0 : ℚ) ≤ ((swPrevCount cfg s now key : Int) : ℚ) := by
        exact_mod_cast hprev
      have h2 : (0 : ℚ) ≤ ((swCurrCount cfg s now key n : Int) : ℚ) := by
        exact_mod_cast hcurr
      have h3 : (0 : ℚ) ≤ 1 -
          ((now - windowStartUnix now cfg.window * nsPerSec : Int) : ℚ) /
            ((cfg.window : Int) : ℚ) := by
        linarith
      nlinarith
    unfold slidingWindowAllowN specSlidingWindowAllowN
    rw [if_neg (not_le.2 hn), if_neg (not_le.2 hn)]
    simp only [Conn.eval, slidingWindowScriptRun_fst, calculateWeightedCount]
    rw [show ((kvLookup s (windowRedisKey cfg key
        (windowStartUnix now cfg.window - durSeconds cfg.window))).map
          (·.1)).getD 0 = swPrevCount cfg s now key from rfl]
    rw [show ((kvLookup s (windowRedisKey cfg key
        (windowStartUnix now cfg.window))).map (·.1)).getD 0 + n
          = swCurrCount cfg s now key n from rfl]
    simp only [hclamp, goTrunc_of_nonneg hwnn, ratFloor_eq_intFloor]
  · have hws60 : windowStartUnix (30 * nsPerSec)
        (mkConfig SlidingWindow 100 60 "test" false).window = 0 := by
      decide
    have hds60 : durSeconds
        (mkConfig SlidingWindow 100 60 "test" false).window = 60 :=
      durSeconds_mul 60
    have hk1 : windowRedisKey
        (mkConfig SlidingWindow 100 60 "test" false) "u" 0 = "test:u:0" := by
      decide
    have hk2 : windowRedisKey
        (mkConfig SlidingWindow 100 60 "test" false) "u" (0 - 60) =
        "test:u:-60" := by decide
    have hne1 : ¬ ("test:u:-60" : String) = "test:u:0" := by decide
    have hne2 : ¬ ("test:u:0" : String) = "test:u:-60" := by decide
    constructor
    · unfold calculateWeightedCount
      norm_num [mkConfig, nsPerSec]
    · unfold slidingWindowAllowN
      rw [hws60, hds60]
      simp only [Conn.eval]
      rw [hk1, hk2]
      simp only [slidingWindowScriptRun, kvLookup, kvIncrBy, kvSet, kvExpire,
        hne1, hne2]
      norm_num [calculateWeightedCount, calculateResetTimeNs, goTrunc,
        ratFloor_eq_intFloor, mkConfig, nsPerSec]

/-- C3 (amended) witness: the equality with the clamped spec driver at
the claim's own instance (previous 80, current 10 + 5, progress 0.5). -/
theorem C3_sliding_window_driver_witness :
    slidingWindowAllowN (mkConfig SlidingWindow 100 60 "test" false)
        (.live [("test:u:-60", 80, 60), ("test:u:0", 10, 60)])
        (30 * nsPerSec) "u" 5 =
      specSlidingWindowAllowN (mkConfig SlidingWindow 100 60 "test" false)
        (.live [("test:u:-60", 80, 60), ("test:u:0", 10, 60)])
        (30 * nsPerSec) "u" 5 :=
  (C3_sliding_window_driver (mkConfig SlidingWindow 100 60 "test" false)
    [("test:u:-60", 80, 60), ("test:u:0", 10, 60)] (30 * nsPerSec) "u" 5 60
    rfl (by decide) (by decide)
    (by
      unfold swPrevCount
      rw [show durSeconds (mkConfig SlidingWindow 100 60 "test" false).window
            = 60 from durSeconds_mul 60]
      decide)
    (by
      unfold swCurrCount
      decide)).1

/-- C4 counterexample: the source script computes
`elapsed = now - last_refill` without the claimed `max(0, ...)` clamp;
for a stored state `(tokens = 5, last_refill = 10)` read at `now = 8`
(refill rate 1, capacity 10, `n = 1`) the source script loses two
tokens and returns `(1, 2)`, while the claimed clamped script returns
`(1, 4)`. -/
theorem C4_counterexample :
    tokenBucketScriptRun [("b", (5, 10), 120)] "b" 10 1 1 8 60 =
      ((1, 2), [("b", (2, 8), 60)]) ∧
    specTokenBucketScriptRun [("b", (5, 10), 120)] "b" 10 1 1 8 60 =
      ((1, 4), [("b", (4, 8), 60)]) ∧
    ((1, 2) : Int × Int) ≠ (1, 4) := by
  refine ⟨?_, ?_, by decide⟩
  · simp only [tokenBucketScriptRun, tbLookup, tbSet]
    norm_num [ratFloor_eq_intFloor]
  · simp only [specTokenBucketScriptRun, tbLookup, tbSet]
    norm_num [ratFloor_eq_intFloor]

/-- C4 (amended): whenever the provided `now` is not earlier than the
stored `last_refill` (in particular on every absent key, which
defaults `last_refill` to `now`), the source script coincides with the
claimed contract — read with defaults `(capacity, now)`, refill capped
at `capacity`, consume `n` exactly when `tokens ≥ n` leaving tokens
unchanged on denial, return `(allowed, floor(tokens))` — and,
unconditionally, the written-back `last_refill` is `now` whether the
call was admitted or not. -/
theorem C4_token_bucket_script (s : TBStore) (key : String)
    (capacity n refillRate now : ℚ) (ttl : Int)
    (hlr : ∀ st, tbLookup s key = some st → st.2 ≤ now) :
    tokenBucketScriptRun s key capacity n refillRate now ttl =
      specTokenBucketScriptRun s key capacity n refillRate now ttl ∧
    (tbLookup (tokenBucketScriptRun s key capacity n refillRate now ttl).2
      key).map (·.2) = some now := by
  constructor
  · unfold tokenBucketScriptRun specTokenBucketScriptRun
    cases h : tbLookup s key with
    | none => simp [h]
    | some st =>
      have hle : st.2 ≤ now := hlr st h
      simp only [h, Option.map_some', Option.getD_some,
        max_eq_right (sub_nonneg.2 hle)]
  · unfold tokenBucketScriptRun
    cases h : tbLookup s key with
    | none =>
      simp only [h, Option.map_none', Option.getD_none]
      rw [tbLookup_tbSet]
      simp
    | some st =>
      simp only [h, Option.map_some', Option.getD_some]
      rw [tbLookup_tbSet]
      simp

/-- C4 (amended) witness: stored state `(5, 2)` read at `now = 8`. -/
theorem C4_token_bucket_script_witness :
    tokenBucketScriptRun [("b", (5, 2), 120)] "b" 10 1 1 8 60 =
      specTokenBucketScriptRun [("b", (5, 2), 120)] "b" 10 1 1 8 60 ∧
    (tbLookup (tokenBucketScriptRun [("b", (5, 2), 120)] "b" 10 1 1 8 60).2
      "b").map (·.2) = some 8 :=
  C4_token_bucket_script [("b", (5, 2), 120)] "b" 10 1 1 8 60
    (by
      intro st h
      have h2 : ((5, 2) : ℚ × ℚ) = st := by simpa [tbLookup] using h
      rw [← h2]
      norm_num)

/-- C5 counterexample: a denied Token Bucket `AllowN(20)` on a fresh
bucket of capacity 10 returns `remaining = 10`, not 0 — on denial the
token count is left unchanged and its floor is reported. -/
theorem C5_counterexample :
    (tokenBucketAllowN (mkConfig TokenBucket 10 10 "test" false)
        (.live []) (1000 * nsPerSec) "u" 20).1 =
      .ok { allowed := false, limit := 10, remaining := 10,
            retryAfter := 10 * nsPerSec, resetAt := 1010 * nsPerSec } ∧
    (10 : Int) ≠ 0 := by
  refine ⟨?_, by decide⟩
  rw [tokenBucketAllowN_live_eq (mkConfig TokenBucket 10 10 "test" false)
    [] (1000 * nsPerSec) "u" 20 (by decide)]
  norm_num [tbScriptOut, tokenBucketScriptRun, tbLookup, tbSet,
    calculateRefillRate, tbCalculateResetTimeNs, goTrunc,
    ratFloor_eq_intFloor, mkConfig, nsPerSec, Config.formatKey,
    Config.keyPfx, Result.mk.injEq]

/-- C5 (amended): on the happy path `remaining` is a non-negative
integer ≤ `limit` (for Fixed Window given a non-negative counter, for
Sliding Window given a whole-second window and non-negative counters,
for Token Bucket given a well-formed stored state), and a denied call
has `remaining = 0` for Fixed and Sliding Window; a denied Token
Bucket call instead reports the floor of the unchanged token count,
which is `< n` but may be positive. -/
theorem C5_remaining_bounds :
    (∀ (cfg : Config) (s : KVStore) (now : Int) (key : String) (n : Int)
        (r : Result), 0 < n → 0 < cfg.limit → 0 ≤ fwCount cfg s now key n →
        (fixedWindowAllowN cfg (.live s) now key n).1 = .ok r →
        0 ≤ r.remaining ∧ r.remaining ≤ r.limit ∧
          (r.allowed = false → r.remaining = 0)) ∧
    (∀ (cfg : Config) (s : KVStore) (now : Int) (key : String) (n ws : Int)
        (r : Result), cfg.window = ws * nsPerSec → 0 < ws → 0 < n →
        0 < cfg.limit → 0 ≤ swPrevCount cfg s now key →
        0 ≤ swCurrCount cfg s now key n →
        (slidingWindowAllowN cfg (.live s) now key n).1 = .ok r →
        0 ≤ r.remaining ∧ r.remaining ≤ r.limit ∧
          (r.allowed = false → r.remaining = 0)) ∧
    (∀ (cfg : Config) (s : TBStore) (now : Int) (key : String) (n : Int)
        (r : Result), 0 < n → 0 < cfg.limit → 0 < cfg.window →
        (∀ st, tbLookup s (cfg.formatKey key) = some st →
          0 ≤ st.1 ∧ st.1 ≤ ((cfg.limit : Int) : ℚ) ∧
          st.2 ≤ ((now : Int) : ℚ) / ((nsPerSec : Int) : ℚ)) →
        (tokenBucketAllowN cfg (.live s) now key n).1 = .ok r →
        0 ≤ r.remaining ∧ r.remaining ≤ r.limit ∧
          (r.allowed = false → r.remaining < n)) := by
  refine ⟨?_, ?_, ?_⟩
  · intro cfg s now key n r hn hL hc hok
    rw [fixedWindowAllowN_live_eq cfg s now key n hn] at hok
    simp only [Except.ok.injEq] at hok
    subst hok
    refine ⟨le_max_left _ _, max_le (le_of_lt hL) (sub_le_self _ hc), ?_⟩
    intro hden
    simp only [decide_eq_false_iff_not, not_le] at hden
    exact max_eq_left (by omega)
  · intro cfg s now key n ws r hw hws hn hL hprev hcurr hok
    rw [slidingWindowAllowN_live_eq cfg s now key n hn] at hok
    simp only [Except.ok.injEq] at hok
    subst hok
    have hwnn := weightedCount_nonneg cfg s now key n ws hw hws hprev hcurr
    have hfl : 0 ≤ goTrunc (calculateWeightedCount cfg now
        (windowStartUnix now cfg.window) (swPrevCount cfg s now key)
        (swCurrCount cfg s now key n)) := by
      rw [goTrunc_of_nonneg hwnn, ratFloor_eq_intFloor]
      exact Int.floor_nonneg.2 hwnn
    refine ⟨le_max_left _ _, max_le (le_of_lt hL) (sub_le_self _ hfl), ?_⟩
    intro hden
    simp only [decide_eq_false_iff_not, not_le] at hden
    have hge : cfg.limit ≤ goTrunc (calculateWeightedCount cfg now
        (windowStartUnix now cfg.window) (swPrevCount cfg s now key)
        (swCurrCount cfg s now key n)) := by
      rw [goTrunc_of_nonneg hwnn, ratFloor_eq_intFloor]
      exact Int.le_floor.2 (le_of_lt hden)
    exact max_eq_left (by omega)
  · intro cfg s now key n r hn hL hW hst hok
    rw [tokenBucketAllowN_live_eq cfg s now key n hn] at hok
    simp only [Except.ok.injEq] at hok
    subst hok
    have hrate : 0 ≤ calculateRefillRate cfg := by
      unfold calculateRefillRate
      apply div_nonneg
      · exact_mod_cast le_of_lt hL
      · apply div_nonneg
        · exact_mod_cast le_of_lt hW
        · norm_num [nsPerSec]
    have hb := tokenBucketScriptRun_bounds s (cfg.formatKey key)
      ((cfg.limit : Int) : ℚ) ((n : Int) : ℚ) (calculateRefillRate cfg)
      (((now : Int) : ℚ) / ((nsPerSec : Int) : ℚ))
      (goTrunc ((((cfg.window : Int) : ℚ) / ((nsPerSec : Int) : ℚ)) * 2))
      (by exact_mod_cast le_of_lt hL) (by exact_mod_cast le_of_lt hn)
      hrate hst
    have hb1 : 0 ≤ (tbScriptOut cfg s now key n).2 := hb.1
    have hb2 : (((tbScriptOut cfg s now key n).2 : Int) : ℚ) ≤
        ((cfg.limit : Int) : ℚ) := hb.2.1
    have hb2i : (tbScriptOut cfg s now key n).2 ≤ cfg.limit := by
      exact_mod_cast hb2
    have hb3 : (tbScriptOut cfg s now key n).1 ≠ 1 →
        (((tbScriptOut cfg s now key n).2 : Int) : ℚ) < ((n : Int) : ℚ) :=
      hb.2.2
    refine ⟨hb1, hb2i, ?_⟩
    intro hden
    have hden2 : ¬ (tbScriptOut cfg s now key n).1 = 1 := by
      simpa using hden
    exact_mod_cast hb3 hden2

/-- C5 (amended) witness: a denied Fixed Window call (counter already
at the limit) returns `remaining = 0` within `[0, limit]`. -/
theorem C5_remaining_bounds_witness :
    0 ≤ ({ allowed := false, limit := 5, remaining := 0,
           retryAfter := 40 * nsPerSec,
           resetAt := 1700000040 * nsPerSec } : Result).remaining ∧
    ({ allowed := false, limit := 5, remaining := 0,
       retryAfter := 40 * nsPerSec,
       resetAt := 1700000040 * nsPerSec } : Result).remaining ≤
      ({ allowed := false, limit := 5, remaining := 0,
         retryAfter := 40 * nsPerSec,
         resetAt := 1700000040 * nsPerSec } : Result).limit ∧
    (({ allowed := false, limit := 5, remaining := 0,
        retryAfter := 40 * nsPerSec,
        resetAt := 1700000040 * nsPerSec } : Result).allowed = false →
      ({ allowed := false, limit := 5, remaining := 0,
         retryAfter := 40 * nsPerSec,
         resetAt := 1700000040 * nsPerSec } : Result).remaining = 0) :=
  C5_remaining_bounds.1 (mkConfig FixedWindow 5 60 "test" false)
    [("test:u:1699999980", 5, 60)] (1700000000 * nsPerSec) "u" 1
    { allowed := false, limit := 5, remaining := 0,
      retryAfter := 40 * nsPerSec, resetAt := 1700000040 * nsPerSec }
    (by decide) (by decide) (by decide) (by decide)

/-- C1 (amended) witness: fail-open Fixed Window limiter with the
store down admits the call, echoing the configured limit. -/
theorem C1_amended_witness :
    fixedWindowAllowN (mkConfig FixedWindow 5 60 "test" true)
        Conn.down 0 "u" 1 =
      (.ok { allowed := true, limit := 5, remaining := 0, retryAfter := 0,
             resetAt := 60 * nsPerSec },
       Conn.down) := by
  exact ((C1_amended (mkConfig FixedWindow 5 60 "test" true) "u" 0 1
    (by decide)).1 rfl).1

end RateLimiter
